import Mathlib

/-!
Verification of the prompt-composition and Stability-adapter core of `src/app.py`
(Streamlit Stable Diffusion image generator).

The Python source is shallowly embedded: pure functions become Lean functions,
the Streamlit session state becomes an explicit `SessionState` record threaded
through `submit`, and the network is an explicit `NetOutcome` parameter.  Python
string operations (`str.strip`, `str.lower`, `str.replace`, `", ".join`) are
embedded as structurally recursive Lean functions over `List Char` so that every
definition evaluates by kernel reduction.  Python exceptions that escape the
source functions are modelled by the `PyResult.exn` constructor; a Python
function that returns `None` after calling `st.error` is modelled by
`PyResult.ok none` together with the recorded error message.
-/

namespace App

/-- Model of Python `str.strip()`: drop whitespace at both ends.  (Python also
strips a few extra control characters and Unicode spaces; all strings in this
development are ASCII, where the two notions agree.) -/
def pyStrip (s : String) : String :=
  ⟨((s.data.dropWhile Char.isWhitespace).reverse.dropWhile Char.isWhitespace).reverse⟩

/-- Model of Python `str.lower()` (ASCII case folding; all strings handled by
the source are ASCII). -/
def pyLower (s : String) : String :=
  ⟨s.data.map Char.toLower⟩

/-- Replace every non-overlapping occurrence of `pat` in the char list,
scanning left to right, exactly as Python `str.replace`.  The fuel argument is
initialised to the length of the subject; the scan consumes at least one
character of the subject per unit of fuel, so the fuel never runs out. -/
def pyReplaceChars (pat repl : List Char) : Nat → List Char → List Char
  | 0, s => s
  | fuel + 1, s =>
    match s with
    | [] => []
    | c :: rest =>
      if pat.isPrefixOf s then
        repl ++ pyReplaceChars pat repl fuel (s.drop pat.length)
      else
        c :: pyReplaceChars pat repl fuel rest

/-- Model of Python `s.replace(pat, repl)` for a non-empty pattern (the source
only ever replaces the pattern consisting of the word Negative, a colon and a
space, which is non-empty; the empty-pattern case of Python is not needed). -/
def pyReplace (s pat repl : String) : String :=
  if pat = "" then s
  else ⟨pyReplaceChars pat.data repl.data s.data.length s.data⟩

/-- Model of Python `", ".join` (via `str.join` on a list built in order). -/
def pyJoin (sep : String) : List String → String
  | [] => ""
  | [x] => x
  | x :: xs => x ++ sep ++ pyJoin sep xs

/-- Truthiness of a Python string: non-empty. -/
def pyTruthyStr (s : String) : Prop := s ≠ ""

instance (s : String) : Decidable (pyTruthyStr s) := by
  unfold pyTruthyStr; infer_instance

/-- Minimal JSON value model for the request/response bodies handled by the
source (`response.json()` results and their indexing). -/
inductive Json where
  | null : Json
  | bool (b : Bool) : Json
  | num (n : Int) : Json
  | str (s : String) : Json
  | arr (xs : List Json) : Json
  | obj (fields : List (String × Json)) : Json

/-- Truthiness of a Python value as used by the line `if image_data:` in
`main` (empty string, empty containers, None, False and 0 are falsy). -/
def pyTruthyJson : Json → Bool
  | .null => false
  | .bool b => b
  | .num n => n != 0
  | .str s => s != ""
  | .arr xs => !xs.isEmpty
  | .obj fs => !fs.isEmpty

/-- Python subscripting `j[k]` with a string key: succeeds only on a dict that
has the key; a dict without the key raises KeyError, and any non-dict value
raises TypeError.  Errors model uncaught Python exceptions. -/
def pyGetKey (j : Json) (k : String) : Except String Json :=
  match j with
  | .obj fields =>
    match fields.lookup k with
    | some v => .ok v
    | none => .error ("KeyError: " ++ k)
  | _ => .error "TypeError: value is not subscriptable with a string key"

/-- Python subscripting `j[i]` with an integer index: succeeds on a list (or a
string, yielding a one-character string) when the index is in range; raises
IndexError when out of range and KeyError/TypeError on other shapes. -/
def pyGetIdx (j : Json) (i : Nat) : Except String Json :=
  match j with
  | .arr xs =>
    match xs.get? i with
    | some v => .ok v
    | none => .error "IndexError: list index out of range"
  | .str s =>
    match s.data.get? i with
    | some c => .ok (.str ⟨[c]⟩)
    | none => .error "IndexError: string index out of range"
  | .obj _ => .error "KeyError: integer key absent"
  | _ => .error "TypeError: value is not subscriptable"

/-! ## The prompt composer (source lines 27-46) -/

/-- Embedding of `generate_prompt(keywords, style, quality, lighting, artist,
negative)` from `src/app.py` lines 27-46.  Python truthiness of a string is
non-emptiness; the returned pair is `(prompt, negative_prompt)`. -/
def generate_prompt (keywords style quality lighting artist negative : String) :
    String × String :=
  let components : List String :=
    (if quality ≠ "" then [quality] else []) ++
    (if style ≠ "" then [style ++ " style"] else []) ++
    [keywords] ++
    (if lighting ≠ "" ∧ lighting ≠ "None" then [lighting ++ " lighting"] else []) ++
    (if artist ≠ "" then ["in the style of " ++ artist] else [])
  let prompt := pyJoin ", " components
  let negative_prompt :=
    if negative ≠ "" then "Negative: " ++ negative else "Negative: None"
  (prompt, negative_prompt)

/-! ## The Stability adapter (source lines 49-100) -/

/-- One weighted text item of the outbound request body. -/
structure TextPrompt where
  text : String
  weight : Int
deriving DecidableEq

/-- The JSON body sent by `requests.post` in `generate_with_stability`
(source lines 73-80). -/
structure RequestBody where
  text_prompts : List TextPrompt
  cfg_scale : Nat
  height : Nat
  width : Nat
  samples : Nat
  steps : Nat
deriving DecidableEq

/-- The `text_prompts` list built in source lines 61-63: the positive prompt
with weight 1, then, when the negative prompt is non-empty and does not
lowercase to the sentinel, the negative prompt with its wrapper occurrences
removed, with weight -1. -/
def stabilityTextPrompts (prompt negative_prompt : String) : List TextPrompt :=
  let base : List TextPrompt := [⟨prompt, 1⟩]
  if negative_prompt ≠ "" ∧ pyLower negative_prompt ≠ "negative: none" then
    base ++ [⟨pyReplace negative_prompt "Negative: " "", -1⟩]
  else
    base

/-- The full request body of source lines 73-80. -/
def stabilityRequestBody (prompt negative_prompt : String) (width height : Nat) :
    RequestBody :=
  { text_prompts := stabilityTextPrompts prompt negative_prompt
    cfg_scale := 7
    height := height
    width := width
    samples := 1
    steps := 30 }

/-- The provider-visible optional negative prompt, in the sense of the
specification record PromptPair: derived from the condition and stripping of
source lines 62-63.  It is `none` exactly when the adapter sends no weight -1
item. -/
def negativePromptAbs (negative_prompt : String) : Option String :=
  if negative_prompt ≠ "" ∧ pyLower negative_prompt ≠ "negative: none" then
    some (pyReplace negative_prompt "Negative: " "")
  else
    none

/-- Result of a Python function call: a normal return value or an uncaught
exception carrying its message. -/
inductive PyResult (α : Type) where
  | ok (a : α) : PyResult α
  | exn (msg : String) : PyResult α
deriving DecidableEq

/-- The HTTP response the network hands back: status code, the JSON body when
`response.json()` parses (`none` models an unparseable body), and the raw text. -/
structure HttpResponse where
  status : Nat
  jsonBody : Option Json
  text : String

/-- The behaviour of the one outbound network call: either a response or a
`requests.exceptions.RequestException` (timeout, DNS failure, connection
reset), whose message is carried. -/
inductive NetOutcome where
  | response (r : HttpResponse) : NetOutcome
  | requestException (msg : String) : NetOutcome

/-- Chained extraction `data["artifacts"][0]["base64"]` from source line 86.
An error is an uncaught Python exception: KeyError, IndexError or TypeError
escape because only `requests.exceptions.RequestException` is caught. -/
def extract_base64 (data : Json) : Except String Json :=
  (pyGetKey data "artifacts").bind (fun a => pyGetIdx a 0) |>.bind
    (fun a0 => pyGetKey a0 "base64")

/-- The error message surfaced on a non-200 status (source lines 88-94):
`response.text`, overridden by the message field when the body parses to a
dict that has one.  The inner bare except means that any other body shape
falls back to the raw text.  (A non-string message value would be stringified
by Python; such values never occur in the scenarios of this development, and
the string case is extracted exactly.) -/
def apiErrorMsg (r : HttpResponse) : String :=
  match r.jsonBody with
  | some (.obj fields) =>
    match fields.lookup "message" with
    | some (.str m) => m
    | some _ => r.text
    | none => r.text
  | _ => r.text

/-- Everything observable about one call of `generate_with_stability`:
its return value or escaped exception, how many network calls it made, the
request body and authorization header it sent (when it sent one), and the
`st.error` message it displayed (when it displayed one). -/
structure GenOutcome where
  result : PyResult (Option Json)
  networkCalls : Nat
  requestBody : Option RequestBody
  authHeader : Option String
  errorMsg : Option String

/-- Embedding of `generate_with_stability(prompt, negative_prompt, width,
height)` from `src/app.py` lines 49-100.  The module global
`STABILITY_API_KEY` is passed explicitly as `apiKey`, and the network is the
explicit `net` parameter.  A 200 response whose body does not parse raises a
JSON decode error inside the try block; in the requests library that error is
a `RequestException`, so it is caught and the function returns None.  A 200
response whose parsed body lacks the `artifacts[0]["base64"]` path raises
KeyError/IndexError/TypeError, which is NOT caught (only RequestException is)
and escapes as `PyResult.exn`. -/
def generate_with_stability (apiKey prompt negative_prompt : String)
    (width height : Nat) (net : NetOutcome) : GenOutcome :=
  if apiKey = "" then
    { result := .ok none, networkCalls := 0, requestBody := none,
      authHeader := none, errorMsg := some "API key not configured" }
  else if prompt = "" ∨ pyStrip prompt = "" then
    { result := .ok none, networkCalls := 0, requestBody := none,
      authHeader := none, errorMsg := some "Prompt cannot be empty" }
  else
    let body := stabilityRequestBody prompt negative_prompt width height
    let auth := "Bearer " ++ apiKey
    match net with
    | .requestException msg =>
      { result := .ok none, networkCalls := 1, requestBody := some body,
        authHeader := some auth, errorMsg := some ("Network Error: " ++ msg) }
    | .response r =>
      if r.status = 200 then
        match r.jsonBody with
        | none =>
          { result := .ok none, networkCalls := 1, requestBody := some body,
            authHeader := some auth,
            errorMsg := some ("Network Error: " ++ "JSON decode failure") }
        | some data =>
          match extract_base64 data with
          | .ok v =>
            { result := .ok (some v), networkCalls := 1, requestBody := some body,
              authHeader := some auth, errorMsg := none }
          | .error e =>
            { result := .exn e, networkCalls := 1, requestBody := some body,
              authHeader := some auth, errorMsg := none }
      else
        { result := .ok none, networkCalls := 1, requestBody := some body,
          authHeader := some auth,
          errorMsg := some ("API Error: " ++ apiErrorMsg r) }

/-- Embedding of `STABILITY_API_KEY = os.getenv("STABILITY_API_KEY", " ")`
from source line 9: the environment value when set, otherwise a single space. -/
def STABILITY_API_KEY (env : Option String) : String :=
  env.getD " "

/-! ## Session state and the submission flow of `main` (source lines 103-204) -/

/-- The Streamlit session state fields initialised in source lines 12-24. -/
structure SessionState where
  generated : Bool
  generated_image : Option Json
  prompt : String
  negative_prompt : String
  keywords : String
  style : String
  quality : String
  lighting : String
  artist : String
  negative : String
  width : Nat
  height : Nat

/-- The initial session state of source lines 12-24. -/
def initialSessionState : SessionState :=
  { generated := false, generated_image := none, prompt := "",
    negative_prompt := "", keywords := "", style := "Realistic",
    quality := "High", lighting := "None", artist := "", negative := "",
    width := 768, height := 768 }

/-- How one press of the Generate Image button ended: stopped at validation
(`st.error` plus `st.stop`, source lines 178-180), ran to completion, or was
aborted by an exception escaping `generate_with_stability`. -/
inductive SubmitStatus where
  | validationFailed : SubmitStatus
  | completed : SubmitStatus
  | raised (msg : String) : SubmitStatus
deriving DecidableEq

/-- Observable result of one press of the Generate Image button: the session
state afterwards, how the run ended, the number of network calls made, and the
request body sent (when one was sent). -/
structure SubmitResult where
  state : SessionState
  status : SubmitStatus
  networkCalls : Nat
  request : Option RequestBody

/-- Embedding of the Generate Image button handler, source lines 177-204.
Validation stops the script before any other effect; otherwise the prompt pair
is composed from the stripped live fields and stored in the session state
BEFORE the adapter runs, and the stored image and generated flag are updated
only when the adapter returns a truthy value.  An exception escaping the
adapter aborts the run after the prompt fields were already stored. -/
def submit (s : SessionState) (apiKey : String) (net : NetOutcome) : SubmitResult :=
  if pyStrip s.keywords = "" then
    { state := s, status := .validationFailed, networkCalls := 0, request := none }
  else
    let pr := generate_prompt (pyStrip s.keywords) s.style s.quality s.lighting
      (pyStrip s.artist) (pyStrip s.negative)
    let s1 := { s with prompt := pr.1, negative_prompt := pr.2 }
    let g := generate_with_stability apiKey pr.1 pr.2 s.width s.height net
    match g.result with
    | .exn e =>
      { state := s1, status := .raised e, networkCalls := g.networkCalls,
        request := g.requestBody }
    | .ok image_data =>
      let s2 :=
        match image_data with
        | some v =>
          if pyTruthyJson v then
            { s1 with generated_image := some v, generated := true }
          else s1
        | none => s1
      { state := s2, status := .completed, networkCalls := g.networkCalls,
        request := g.requestBody }

/-! ## Helper lemmas -/

/-- Stripping the empty string yields the empty string. -/
lemma pyStrip_empty : pyStrip "" = "" := rfl

/-- The guard of source line 54 is equivalent to the stripped prompt being
empty. -/
lemma prompt_guard_iff (p : String) : (p = "" ∨ pyStrip p = "") ↔ pyStrip p = "" := by
  constructor
  · rintro (he | h)
    · rw [he]; rfl
    · exact h
  · exact Or.inr

/-- The wrapped negative prompt is never the empty string. -/
lemma negWrap_ne_empty (n : String) : "Negative: " ++ n ≠ "" := by
  obtain ⟨l⟩ := n
  intro h
  have h2 : "Negative: ".data ++ l = [] := String.data_eq_of_eq h
  have h3 := List.append_eq_nil.mp h2
  exact absurd h3.1 (by decide)

/-- The second component returned by the composer, in closed form. -/
lemma generate_prompt_snd (keywords style quality lighting artist negative : String) :
    (generate_prompt keywords style quality lighting artist negative).2 =
      if negative ≠ "" then "Negative: " ++ negative else "Negative: None" := rfl

/-- The `text_prompts` list as the base item followed by the optional weighted
negative item. -/
lemma stabilityTextPrompts_eq (prompt negative_prompt : String) :
    stabilityTextPrompts prompt negative_prompt =
      [⟨prompt, 1⟩] ++
        (if negative_prompt ≠ "" ∧ pyLower negative_prompt ≠ "negative: none" then
          [⟨pyReplace negative_prompt "Negative: " "", -1⟩]
        else []) := by
  unfold stabilityTextPrompts
  by_cases h : negative_prompt ≠ "" ∧ pyLower negative_prompt ≠ "negative: none"
  · rw [if_pos h, if_pos h]
  · rw [if_neg h, if_neg h, List.append_nil]

/-- Once both guards pass, the adapter makes exactly one network call carrying
the fixed request body and the bearer header. -/
lemma gws_guards_passed (apiKey prompt np : String) (w hgt : Nat) (net : NetOutcome)
    (hk : apiKey ≠ "") (hp : pyStrip prompt ≠ "") :
    (generate_with_stability apiKey prompt np w hgt net).networkCalls = 1 ∧
    (generate_with_stability apiKey prompt np w hgt net).requestBody =
      some (stabilityRequestBody prompt np w hgt) ∧
    (generate_with_stability apiKey prompt np w hgt net).authHeader =
      some ("Bearer " ++ apiKey) := by
  unfold generate_with_stability
  rw [if_neg hk, if_neg (fun h => hp ((prompt_guard_iff prompt).mp h))]
  cases net with
  | requestException m => exact ⟨rfl, rfl, rfl⟩
  | response r =>
    dsimp only
    by_cases hs : r.status = 200
    · rw [if_pos hs]
      cases hjb : r.jsonBody with
      | none => exact ⟨rfl, rfl, rfl⟩
      | some data =>
        dsimp only
        cases hx : extract_base64 data with
        | ok v => exact ⟨rfl, rfl, rfl⟩
        | error e => exact ⟨rfl, rfl, rfl⟩
    · rw [if_neg hs]
      exact ⟨rfl, rfl, rfl⟩

/-! ## Claim theorems -/

/-- C1: for keywords lion, style Realistic, quality High, lighting Cinematic,
artist Van Gogh and an empty negative field, the composer returns exactly the
positive prompt listed in the specification, and the negative prompt is absent:
the returned second component is the sentinel, the provider-visible optional
negative is `none`, and the adapter sends no weight -1 item. -/
theorem C1_ordering_exact :
    generate_prompt "lion" "Realistic" "High" "Cinematic" "Van Gogh" "" =
      ("High, Realistic style, lion, Cinematic lighting, in the style of Van Gogh",
       "Negative: None") ∧
    negativePromptAbs
      (generate_prompt "lion" "Realistic" "High" "Cinematic" "Van Gogh" "").2 = none ∧
    stabilityTextPrompts
      (generate_prompt "lion" "Realistic" "High" "Cinematic" "Van Gogh" "").1
      (generate_prompt "lion" "Realistic" "High" "Cinematic" "Van Gogh" "").2 =
      [⟨"High, Realistic style, lion, Cinematic lighting, in the style of Van Gogh", 1⟩] := by
  refine ⟨by decide, by decide, by decide⟩

/-- C2 counterexample: the negative field "None" is non-empty, yet the composer
wraps it into the sentinel string, the provider-visible negative is `none`, and
the adapter sends no negative prompt at all — contradicting the claim that any
non-empty negative field yields that negative text as the negative prompt. -/
theorem C2_counterexample :
    ("None" : String) ≠ "" ∧
    (generate_prompt "lion" "Realistic" "High" "None" "" "None").2 = "Negative: None" ∧
    negativePromptAbs (generate_prompt "lion" "Realistic" "High" "None" "" "None").2 = none ∧
    stabilityTextPrompts (generate_prompt "lion" "Realistic" "High" "None" "" "None").1
      (generate_prompt "lion" "Realistic" "High" "None" "" "None").2 =
      [⟨"High, Realistic style, lion", 1⟩] := by
  refine ⟨by decide, by decide, by decide, by decide⟩

/-- C2 amended: a weight -1 negative item is sent exactly when the negative
field is non-empty AND its wrapped form does not lowercase to the sentinel
(so the field value None, in any letter case, is silently treated as absent);
the item text is the wrapped negative with every occurrence of the wrapper
marker removed (equal to the user text only when that text does not itself
contain the marker); an empty negative field yields no negative item. -/
theorem C2_negative_rule_amended (keywords style quality lighting artist negative : String) :
    stabilityTextPrompts
        (generate_prompt keywords style quality lighting artist negative).1
        (generate_prompt keywords style quality lighting artist negative).2 =
      if negative ≠ "" ∧ pyLower ("Negative: " ++ negative) ≠ "negative: none" then
        [⟨(generate_prompt keywords style quality lighting artist negative).1, 1⟩,
         ⟨pyReplace ("Negative: " ++ negative) "Negative: " "", -1⟩]
      else
        [⟨(generate_prompt keywords style quality lighting artist negative).1, 1⟩] := by
  by_cases hn : negative = ""
  · subst hn
    rw [generate_prompt_snd, if_neg (by decide : ¬(("" : String) ≠ ""))]
    unfold stabilityTextPrompts
    rw [if_neg (by decide :
          ¬(("Negative: None" : String) ≠ "" ∧
            pyLower "Negative: None" ≠ "negative: none"))]
    rw [if_neg (by decide :
          ¬(("" : String) ≠ "" ∧ pyLower ("Negative: " ++ "") ≠ "negative: none"))]
  · rw [generate_prompt_snd, if_pos hn]
    unfold stabilityTextPrompts
    by_cases h2 : pyLower ("Negative: " ++ negative) = "negative: none"
    · rw [if_neg (fun hc => hc.2 h2), if_neg (fun hc => hc.2 h2)]
    · rw [if_pos ⟨negWrap_ne_empty negative, h2⟩, if_pos ⟨hn, h2⟩]
      rfl

/-- C3 counterexample: for the user negative text that itself contains the
wrapper marker, the weight -1 item sent does not carry the user text: every
occurrence of the marker is removed, not just the wrapper. -/
theorem C3_counterexample :
    (generate_prompt "lion" "Realistic" "High" "None" "" "Negative: space, blurry").2 =
      "Negative: Negative: space, blurry" ∧
    (stabilityRequestBody
        (generate_prompt "lion" "Realistic" "High" "None" "" "Negative: space, blurry").1
        (generate_prompt "lion" "Realistic" "High" "None" "" "Negative: space, blurry").2
        768 768).text_prompts =
      [⟨"High, Realistic style, lion", 1⟩, ⟨"space, blurry", -1⟩] ∧
    ("space, blurry" : String) ≠ "Negative: space, blurry" := by
  refine ⟨by decide, by decide, by decide⟩

/-- C3 amended: every adapter invocation that passes the credential and prompt
guards makes exactly one network call whose body lists the positive prompt
with weight 1 first, adds the weight -1 item exactly when the incoming
negative prompt is non-empty and does not lowercase to the sentinel, carrying
that negative prompt with every wrapper-marker occurrence removed, and always
includes samples 1 and steps 30. -/
theorem C3_request_shape_amended (apiKey prompt negative_prompt : String)
    (width height : Nat) (net : NetOutcome)
    (hk : apiKey ≠ "") (hp : pyStrip prompt ≠ "") :
    (generate_with_stability apiKey prompt negative_prompt width height net).networkCalls
      = 1 ∧
    (generate_with_stability apiKey prompt negative_prompt width height net).requestBody =
      some { text_prompts :=
               [⟨prompt, 1⟩] ++
                 (if negative_prompt ≠ "" ∧ pyLower negative_prompt ≠ "negative: none" then
                   [⟨pyReplace negative_prompt "Negative: " "", -1⟩]
                 else []),
             cfg_scale := 7, height := height, width := width,
             samples := 1, steps := 30 } := by
  obtain ⟨h1, h2, _⟩ :=
    gws_guards_passed apiKey prompt negative_prompt width height net hk hp
  refine ⟨h1, ?_⟩
  rw [h2]
  unfold stabilityRequestBody
  rw [stabilityTextPrompts_eq]

/-- C3 amended witness at a concrete input. -/
theorem C3_request_shape_amended_witness :
    (generate_with_stability "key" "lion" "Negative: blurry" 512 768
        (.requestException "timeout")).networkCalls = 1 ∧
    (generate_with_stability "key" "lion" "Negative: blurry" 512 768
        (.requestException "timeout")).requestBody =
      some { text_prompts :=
               [⟨"lion", 1⟩] ++
                 (if ("Negative: blurry" : String) ≠ "" ∧
                     pyLower "Negative: blurry" ≠ "negative: none" then
                   [⟨pyReplace "Negative: blurry" "Negative: " "", -1⟩]
                 else []),
             cfg_scale := 7, height := 768, width := 512,
             samples := 1, steps := 30 } :=
  C3_request_shape_amended "key" "lion" "Negative: blurry" 512 768
    (.requestException "timeout") (by decide) (by decide)

/-- C4: a submission whose keywords strip to the empty string stops at
validation: the status is the validation failure, no network call is made, no
request is sent, and the session state is returned completely unchanged. -/
theorem C4_validation_stops (s : SessionState) (apiKey : String) (net : NetOutcome)
    (h : pyStrip s.keywords = "") :
    submit s apiKey net =
      { state := s, status := .validationFailed, networkCalls := 0, request := none } := by
  unfold submit
  rw [if_pos h]

/-- C4 witness: a whitespace-only keywords field. -/
theorem C4_validation_stops_witness :
    pyStrip "   " = "" ∧
    submit { initialSessionState with keywords := "   " } "key"
        (.requestException "unreachable") =
      { state := { initialSessionState with keywords := "   " },
        status := .validationFailed, networkCalls := 0, request := none } :=
  ⟨by decide, C4_validation_stops _ _ _ (by decide)⟩

/-- A well-formed success body: `artifacts[0]["base64"]` is a base64 string. -/
def okBody : Json := .obj [("artifacts", .arr [.obj [("base64", .str "QUJDRA==")]])]

/-- A 200 response carrying `okBody`. -/
def okNet : NetOutcome := .response { status := 200, jsonBody := some okBody, text := "" }

/-- A 500 response (provider failure). -/
def errNet : NetOutcome :=
  .response { status := 500, jsonBody := none, text := "Internal Server Error" }

/-- Session state after a first, successful submission with keywords cat. -/
def stateAfterCat : SessionState :=
  (submit { initialSessionState with keywords := "cat" } "key" okNet).state

/-- Session state after the user edits keywords to dog and the second
submission fails with a 500 response. -/
def stateAfterDogFail : SessionState :=
  (submit { stateAfterCat with keywords := "dog" } "key" errNet).state

/-- C5 counterexample: the first submission (cat) succeeds and stores its
image; the second submission (dog) passes validation, makes a network call and
fails, after which the stored prompt pair is the one of the second request
while the stored image still is the one of the first request — a torn pairing
the claim says can never be observed. -/
theorem C5_counterexample :
    stateAfterCat.prompt = "High, Realistic style, cat" ∧
    stateAfterCat.generated_image = some (.str "QUJDRA==") ∧
    (submit { stateAfterCat with keywords := "dog" } "key" errNet).networkCalls = 1 ∧
    stateAfterDogFail.prompt = "High, Realistic style, dog" ∧
    stateAfterDogFail.generated_image = some (.str "QUJDRA==") ∧
    stateAfterDogFail.generated = true :=
  ⟨rfl, rfl, rfl, rfl, rfl, rfl⟩

/-- C5 amended: after a submission that passes validation, the stored prompt
pair always reflects the current request, while the stored image and generated
flag either are updated to the truthy image returned by the adapter for this
same request, or are left exactly as they were before the submission (so the
stored pair and the stored image may reflect different requests after a failed
attempt). -/
theorem C5_atomicity_amended (s : SessionState) (apiKey : String) (net : NetOutcome)
    (h : ¬ pyStrip s.keywords = "") :
    (submit s apiKey net).state.prompt =
      (generate_prompt (pyStrip s.keywords) s.style s.quality s.lighting
        (pyStrip s.artist) (pyStrip s.negative)).1 ∧
    (submit s apiKey net).state.negative_prompt =
      (generate_prompt (pyStrip s.keywords) s.style s.quality s.lighting
        (pyStrip s.artist) (pyStrip s.negative)).2 ∧
    ((submit s apiKey net).state.generated_image = s.generated_image ∧
       (submit s apiKey net).state.generated = s.generated ∨
     ∃ v,
       (generate_with_stability apiKey
          (generate_prompt (pyStrip s.keywords) s.style s.quality s.lighting
            (pyStrip s.artist) (pyStrip s.negative)).1
          (generate_prompt (pyStrip s.keywords) s.style s.quality s.lighting
            (pyStrip s.artist) (pyStrip s.negative)).2
          s.width s.height net).result = .ok (some v) ∧
       pyTruthyJson v = true ∧
       (submit s apiKey net).state.generated_image = some v ∧
       (submit s apiKey net).state.generated = true) := by
  unfold submit
  rw [if_neg h]
  dsimp only
  cases hg : (generate_with_stability apiKey
      (generate_prompt (pyStrip s.keywords) s.style s.quality s.lighting
        (pyStrip s.artist) (pyStrip s.negative)).1
      (generate_prompt (pyStrip s.keywords) s.style s.quality s.lighting
        (pyStrip s.artist) (pyStrip s.negative)).2
      s.width s.height net).result with
  | exn e => exact ⟨rfl, rfl, Or.inl ⟨rfl, rfl⟩⟩
  | ok image_data =>
    cases image_data with
    | none => exact ⟨rfl, rfl, Or.inl ⟨rfl, rfl⟩⟩
    | some v =>
      by_cases ht : pyTruthyJson v = true
      · dsimp only
        rw [if_pos ht]
        exact ⟨rfl, rfl, Or.inr ⟨v, rfl, ht, rfl, rfl⟩⟩
      · dsimp only
        rw [if_neg ht]
        exact ⟨rfl, rfl, Or.inl ⟨rfl, rfl⟩⟩

/-- C5 amended witness at a concrete successful submission. -/
theorem C5_atomicity_amended_witness :
    (submit { initialSessionState with keywords := "cat" } "key" okNet).state.prompt =
      "High, Realistic style, cat" ∧
    (submit { initialSessionState with keywords := "cat" } "key" okNet).state.negative_prompt =
      "Negative: None" ∧
    ((submit { initialSessionState with keywords := "cat" } "key" okNet).state.generated_image =
         ({ initialSessionState with keywords := "cat" } : SessionState).generated_image ∧
       (submit { initialSessionState with keywords := "cat" } "key" okNet).state.generated =
         ({ initialSessionState with keywords := "cat" } : SessionState).generated ∨
     ∃ v,
       (generate_with_stability "key" "High, Realistic style, cat" "Negative: None"
          768 768 okNet).result = .ok (some v) ∧
       pyTruthyJson v = true ∧
       (submit { initialSessionState with keywords := "cat" } "key" okNet).state.generated_image =
         some v ∧
       (submit { initialSessionState with keywords := "cat" } "key" okNet).state.generated =
         true) :=
  C5_atomicity_amended { initialSessionState with keywords := "cat" } "key" okNet (by decide)

/-- A session that already holds a stored image from an earlier request. -/
def preloadedState : SessionState :=
  { initialSessionState with
    keywords := "cat"
    generated := true
    generated_image := some (.str "T0xE") }

/-- C6 counterexample: a submission that passes validation and reaches the
adapter (one network call is made) fails with a 500 response, and the stored
last outcome — the generated flag and the stored image — is left exactly as it
was, not overwritten. -/
theorem C6_counterexample :
    preloadedState.generated_image = some (.str "T0xE") ∧
    (submit preloadedState "key" errNet).networkCalls = 1 ∧
    (submit preloadedState "key" errNet).status = .completed ∧
    (submit preloadedState "key" errNet).state.generated_image = some (.str "T0xE") ∧
    (submit preloadedState "key" errNet).state.generated = true :=
  ⟨rfl, rfl, rfl, rfl, rfl⟩

/-- C6 amended: a non-validation submission overwrites the stored image and
generated flag exactly when the adapter returns a truthy image value; on any
other adapter outcome (failure return, falsy value, or escaped exception) the
stored image and flag are left untouched. -/
theorem C6_overwrite_amended (s : SessionState) (apiKey : String) (net : NetOutcome)
    (h : ¬ pyStrip s.keywords = "") :
    (match (generate_with_stability apiKey
        (generate_prompt (pyStrip s.keywords) s.style s.quality s.lighting
          (pyStrip s.artist) (pyStrip s.negative)).1
        (generate_prompt (pyStrip s.keywords) s.style s.quality s.lighting
          (pyStrip s.artist) (pyStrip s.negative)).2
        s.width s.height net).result with
     | .ok (some v) =>
       if pyTruthyJson v = true then
         (submit s apiKey net).state.generated_image = some v ∧
         (submit s apiKey net).state.generated = true
       else
         (submit s apiKey net).state.generated_image = s.generated_image ∧
         (submit s apiKey net).state.generated = s.generated
     | _ =>
       (submit s apiKey net).state.generated_image = s.generated_image ∧
       (submit s apiKey net).state.generated = s.generated) := by
  cases hg : (generate_with_stability apiKey
      (generate_prompt (pyStrip s.keywords) s.style s.quality s.lighting
        (pyStrip s.artist) (pyStrip s.negative)).1
      (generate_prompt (pyStrip s.keywords) s.style s.quality s.lighting
        (pyStrip s.artist) (pyStrip s.negative)).2
      s.width s.height net).result with
  | exn e =>
    dsimp only
    unfold submit
    rw [if_neg h]
    dsimp only
    rw [hg]
    exact ⟨rfl, rfl⟩
  | ok image_data =>
    cases image_data with
    | none =>
      dsimp only
      unfold submit
      rw [if_neg h]
      dsimp only
      rw [hg]
      exact ⟨rfl, rfl⟩
    | some v =>
      dsimp only
      unfold submit
      rw [if_neg h]
      dsimp only
      rw [hg]
      dsimp only
      by_cases ht : pyTruthyJson v = true
      · rw [if_pos ht, if_pos ht]
        exact ⟨rfl, rfl⟩
      · rw [if_neg ht, if_neg ht]
        exact ⟨rfl, rfl⟩

/-- C6 amended witness at a concrete successful submission. -/
theorem C6_overwrite_amended_witness :
    (match (generate_with_stability "key"
        (generate_prompt (pyStrip "cat") "Realistic" "High" "None"
          (pyStrip "") (pyStrip "")).1
        (generate_prompt (pyStrip "cat") "Realistic" "High" "None"
          (pyStrip "") (pyStrip "")).2
        768 768 okNet).result with
     | .ok (some v) =>
       if pyTruthyJson v = true then
         (submit { initialSessionState with keywords := "cat" } "key" okNet).state.generated_image
             = some v ∧
         (submit { initialSessionState with keywords := "cat" } "key" okNet).state.generated
             = true
       else
         (submit { initialSessionState with keywords := "cat" } "key" okNet).state.generated_image
             = ({ initialSessionState with keywords := "cat" } : SessionState).generated_image ∧
         (submit { initialSessionState with keywords := "cat" } "key" okNet).state.generated
             = ({ initialSessionState with keywords := "cat" } : SessionState).generated
     | _ =>
       (submit { initialSessionState with keywords := "cat" } "key" okNet).state.generated_image
           = ({ initialSessionState with keywords := "cat" } : SessionState).generated_image ∧
       (submit { initialSessionState with keywords := "cat" } "key" okNet).state.generated
           = ({ initialSessionState with keywords := "cat" } : SessionState).generated) :=
  C6_overwrite_amended { initialSessionState with keywords := "cat" } "key" okNet (by decide)

/-- C7 counterexample: a 200 response whose body is well-formed JSON but lacks
the artifacts field makes the subscripting on source line 86 raise KeyError,
which is not a RequestException and therefore escapes the adapter uncaught —
contradicting the claim that a malformed response body yields a Failure and
never an uncaught exception. -/
theorem C7_counterexample :
    (generate_with_stability "key" "lion" "Negative: None" 512 512
        (.response { status := 200, jsonBody := some (.obj []), text := "{}" })).result =
      .exn "KeyError: artifacts" := rfl

/-- C7 amended: the adapter returns normally (a Failure `None` or a Success
value) in every case EXCEPT exactly one: an uncaught exception escapes if and
only if both guards pass and the response is a 200 whose parsed JSON body
lacks the `artifacts[0]["base64"]` shape.  Empty credential, empty prompt,
non-2xx status, unparseable body and network faults all return Failure. -/
theorem C7_total_boundary_amended (apiKey prompt np : String) (w hgt : Nat)
    (net : NetOutcome) :
    (∃ e, (generate_with_stability apiKey prompt np w hgt net).result = .exn e) ↔
      (apiKey ≠ "" ∧ pyStrip prompt ≠ "" ∧
       ∃ r data e, net = .response r ∧ r.status = 200 ∧ r.jsonBody = some data ∧
         extract_base64 data = .error e) := by
  unfold generate_with_stability
  by_cases hk : apiKey = ""
  · rw [if_pos hk]
    constructor
    · rintro ⟨e, he⟩
      exact absurd he (by simp)
    · rintro ⟨hk2, _⟩
      exact absurd hk hk2
  · rw [if_neg hk]
    by_cases hp : prompt = "" ∨ pyStrip prompt = ""
    · rw [if_pos hp]
      constructor
      · rintro ⟨e, he⟩
        exact absurd he (by simp)
      · rintro ⟨_, hp2, _⟩
        exact (hp2 ((prompt_guard_iff prompt).mp hp)).elim
    · rw [if_neg hp]
      have hp2 : pyStrip prompt ≠ "" := fun h2 => hp (Or.inr h2)
      cases net with
      | requestException m =>
        constructor
        · rintro ⟨e, he⟩
          exact absurd he (by simp)
        · rintro ⟨_, _, r, data, e, hne, _⟩
          exact absurd hne (by simp)
      | response r =>
        dsimp only
        by_cases hs : r.status = 200
        · rw [if_pos hs]
          cases hjb : r.jsonBody with
          | none =>
            constructor
            · rintro ⟨e, he⟩
              exact absurd he (by simp)
            · rintro ⟨_, _, r2, data, e, hr2, hs2, hjb2, hx⟩
              injection hr2 with h9
              subst h9
              rw [hjb] at hjb2
              exact absurd hjb2 (by simp)
          | some data =>
            dsimp only
            cases hx : extract_base64 data with
            | ok v =>
              constructor
              · rintro ⟨e, he⟩
                exact absurd he (by simp)
              · rintro ⟨_, _, r2, data2, e, hr2, hs2, hjb2, hx2⟩
                injection hr2 with h9
                subst h9
                rw [hjb] at hjb2
                injection hjb2 with h8
                subst h8
                rw [hx] at hx2
                exact absurd hx2 (by simp)
            | error e =>
              constructor
              · intro _
                exact ⟨hk, hp2, r, data, e, rfl, hs, hjb, hx⟩
              · intro _
                exact ⟨e, rfl⟩
        · rw [if_neg hs]
          constructor
          · rintro ⟨e, he⟩
            exact absurd he (by simp)
          · rintro ⟨_, _, r2, data, e, hr2, hs2, _⟩
            injection hr2 with h9
            subst h9
            exact (hs hs2).elim

/-- The FieldSet of the specification: the seven editable fields together with
the dimensions. -/
structure FieldSet where
  keywords : String
  style : String
  quality : String
  lighting : String
  artist : String
  negative : String
  width : Nat
  height : Nat

/-- The composer applied to a FieldSet (it reads only the six text fields; the
dimensions are passed to the adapter, not to the composer). -/
def composeFS (f : FieldSet) : String × String :=
  generate_prompt f.keywords f.style f.quality f.lighting f.artist f.negative

/-- C8: composition is a pure deterministic function of the six text fields of
a FieldSet: any two FieldSets that agree on those fields (whatever their
dimensions) compose to byte-identical PromptPairs, and composing the same
FieldSet twice yields identical output. -/
theorem C8_compose_deterministic (f g : FieldSet)
    (h1 : f.keywords = g.keywords) (h2 : f.style = g.style)
    (h3 : f.quality = g.quality) (h4 : f.lighting = g.lighting)
    (h5 : f.artist = g.artist) (h6 : f.negative = g.negative) :
    composeFS f = composeFS g ∧ composeFS f = composeFS f := by
  unfold composeFS
  rw [h1, h2, h3, h4, h5, h6]
  exact ⟨rfl, rfl⟩

/-- C8 witness: two FieldSets equal in the text fields but with different
dimensions compose identically. -/
theorem C8_compose_deterministic_witness :
    composeFS ⟨"lion", "Realistic", "High", "Cinematic", "Van Gogh", "", 512, 512⟩ =
      composeFS ⟨"lion", "Realistic", "High", "Cinematic", "Van Gogh", "", 1024, 768⟩ ∧
    composeFS ⟨"lion", "Realistic", "High", "Cinematic", "Van Gogh", "", 512, 512⟩ =
      composeFS ⟨"lion", "Realistic", "High", "Cinematic", "Van Gogh", "", 512, 512⟩ :=
  C8_compose_deterministic _ _ rfl rfl rfl rfl rfl rfl

/-- C9: when the non-empty negative field wraps to a string that lowercases to
the sentinel (the field text is None in any letter case), the composed
negative prompt is the wrapped string, yet the provider-visible negative is
absent and the adapter sends no weight -1 item, although the user explicitly
entered a negative prompt. -/
theorem C9_none_sentinel_dropped (keywords style quality lighting artist negative : String)
    (h1 : negative ≠ "")
    (h2 : pyLower ("Negative: " ++ negative) = "negative: none") :
    (generate_prompt keywords style quality lighting artist negative).2 =
      "Negative: " ++ negative ∧
    negativePromptAbs (generate_prompt keywords style quality lighting artist negative).2 =
      none ∧
    stabilityTextPrompts (generate_prompt keywords style quality lighting artist negative).1
        (generate_prompt keywords style quality lighting artist negative).2 =
      [⟨(generate_prompt keywords style quality lighting artist negative).1, 1⟩] := by
  have hs : (generate_prompt keywords style quality lighting artist negative).2 =
      "Negative: " ++ negative := by
    rw [generate_prompt_snd, if_pos h1]
  refine ⟨hs, ?_, ?_⟩
  · rw [hs]
    unfold negativePromptAbs
    rw [if_neg (fun hc => hc.2 h2)]
  · rw [hs]
    unfold stabilityTextPrompts
    rw [if_neg (fun hc => hc.2 h2)]

/-- C9 witness: the negative field NONE. -/
theorem C9_none_sentinel_dropped_witness :
    (generate_prompt "lion" "Realistic" "High" "None" "" "NONE").2 =
      "Negative: " ++ "NONE" ∧
    negativePromptAbs (generate_prompt "lion" "Realistic" "High" "None" "" "NONE").2 =
      none ∧
    stabilityTextPrompts (generate_prompt "lion" "Realistic" "High" "None" "" "NONE").1
        (generate_prompt "lion" "Realistic" "High" "None" "" "NONE").2 =
      [⟨(generate_prompt "lion" "Realistic" "High" "None" "" "NONE").1, 1⟩] :=
  C9_none_sentinel_dropped "lion" "Realistic" "High" "None" "" "NONE"
    (by decide) (by decide)

/-- C10: with the environment variable unset, the credential defaults to a
single space, which is non-empty; for any prompt that passes the prompt guard
the key-not-configured branch does not trigger, a network request is issued,
and its bearer header carries the blank credential. -/
theorem C10_blank_default_key (prompt np : String) (w hgt : Nat) (net : NetOutcome)
    (hp : pyStrip prompt ≠ "") :
    STABILITY_API_KEY none = " " ∧
    (" " : String) ≠ "" ∧
    (generate_with_stability (STABILITY_API_KEY none) prompt np w hgt net).networkCalls
      = 1 ∧
    (generate_with_stability (STABILITY_API_KEY none) prompt np w hgt net).authHeader =
      some "Bearer  " ∧
    (generate_with_stability (STABILITY_API_KEY none) prompt np w hgt net).requestBody =
      some (stabilityRequestBody prompt np w hgt) := by
  obtain ⟨h1, h2, h3⟩ := gws_guards_passed (STABILITY_API_KEY none) prompt np w hgt net
    (by decide) hp
  exact ⟨rfl, by decide, h1, h3, h2⟩

/-- C10 witness at a concrete prompt and network fault. -/
theorem C10_blank_default_key_witness :
    STABILITY_API_KEY none = " " ∧
    (" " : String) ≠ "" ∧
    (generate_with_stability (STABILITY_API_KEY none) "lion" "Negative: None" 768 768
        (.requestException "timeout")).networkCalls = 1 ∧
    (generate_with_stability (STABILITY_API_KEY none) "lion" "Negative: None" 768 768
        (.requestException "timeout")).authHeader = some "Bearer  " ∧
    (generate_with_stability (STABILITY_API_KEY none) "lion" "Negative: None" 768 768
        (.requestException "timeout")).requestBody =
      some (stabilityRequestBody "lion" "Negative: None" 768 768) :=
  C10_blank_default_key "lion" "Negative: None" 768 768
    (.requestException "timeout") (by decide)

end App
